import Mathlib

set_option maxRecDepth 65536

/-!
Verification of the PhotoSync PWA peer-to-peer photo transfer core.

This file shallowly embeds the state and event handlers of the two
connection hooks of the repository and the supporting modules:

* `WebRTCHook` — the WebRTC hook (`usePhotoSyncWebRTC`): connection state,
  photo manifest handling, chunked photo reassembly, peer messaging,
  cleanup and disconnect.
* `BatchSync` — the Socket.IO batch hook (`usePhotoSync`): the photo
  chunk/complete handlers installed by `setupPhotoHandlers`, including
  MD5 checksum validation of reassembled photos.
* `QRPair` — QR pairing payload validation (`validateQRPayload`).
* `ConnStore` — the saved-connection store (`loadWebRTCConnection` and
  its localStorage fallback) with the 90-day retention window.

React `useState` setters and `useRef` cells are modelled as fields of an
explicit state record; each event handler becomes a function from state
to state.  Sends over the data channel are recorded in an `outbox` list;
`URL.createObjectURL` is modelled by a fresh-name counter and
`URL.revokeObjectURL` by a `revoked` list.
-/

namespace WebRTCHook

/-- One debug log entry, as produced by `addLog(message, level)`. -/
structure LogEntry where
  message : String
  level : String
  deriving Repr, DecidableEq

/-- A photo entry of the manifest message as sent on the wire:
`{id, name, size, width, height, modified, created}`. -/
structure WirePhoto where
  id : String
  name : String
  size : Nat
  width : Nat
  height : Nat
  modified : String
  created : String
  deriving Repr, DecidableEq

/-- A photo entry as stored in the `photos` state after the manifest
transformation (`filename := photo.name`, `thumbnail`/`url` start null). -/
structure PhotoMeta where
  id : String
  filename : String
  thumbnail : Option String
  url : Option String
  size : Nat
  width : Nat
  height : Nat
  modified : String
  created : String
  deriving Repr, DecidableEq

/-- The `currentPhotoRef` contents set by a `photo-start` message. -/
structure CurrentPhoto where
  id : String
  name : String
  size : Nat
  mimeType : String
  deriving Repr, DecidableEq

/-- A parsed inbound JSON control message, by its `type` discriminator. -/
inductive Msg where
  | manifest (photos : List WirePhoto)
  | photoStart (photoId name : String) (size : Nat) (mimeType : String)
  | photoComplete (photoId : String)
  | pong
  | errorMsg (err : String)
  | unknown (t : String)
  deriving Repr, DecidableEq

/-- An inbound data-channel frame: either a frame whose text parses as a
JSON control message, or a raw binary frame (the `JSON.parse` failure
branch of `handlePeerData`). -/
inductive PeerFrame where
  | ctrl (m : Msg)
  | binary (b : List Nat)
  deriving Repr, DecidableEq

/-- The SimplePeer handle held in `peerRef`; `destroyed` mirrors the
`peer.destroyed` flag checked by `sendToPeer`. -/
structure PeerHandle where
  destroyed : Bool
  deriving Repr, DecidableEq

/-- An outbound message sent through `sendToPeer`. -/
inductive OutMsg where
  | requestManifest
  | requestPhoto (photoId : String) (quality maxDimension : Nat)
  deriving Repr, DecidableEq

/-- The full observable state of the `usePhotoSyncWebRTC` hook:
`useState` values plus the persistent refs, an `outbox` recording data
sent to the peer, a `revoked` list recording revoked blob URLs, and a
counter generating fresh blob URLs. -/
structure HookState where
  connectionState : String
  error : Option String
  photos : List PhotoMeta
  photoData : List (String × String)
  signalingSocket : Option Unit
  peer : Option PeerHandle
  photoBuffer : Option (List (List Nat))
  currentPhoto : Option CurrentPhoto
  debugLogs : List LogEntry
  outbox : List OutMsg
  revoked : List String
  urlCounter : Nat
  deriving Repr, DecidableEq

/-- Keep only the last `n` elements of a list (JS `slice(-n)`). -/
def lastN (n : Nat) (l : List α) : List α := l.drop (l.length - n)

/-- `addLog(message, level)`: appends a log entry, keeping the last 199
previous entries (`prev.slice(-maxLogs + 1)` with `maxLogs = 200`). -/
def addLog (s : HookState) (message level : String) : HookState :=
  { s with debugLogs := lastN 199 s.debugLogs ++ [⟨message, level⟩] }

/-- `sendToPeer(message)`: sends only when a peer exists and is not
destroyed; otherwise does nothing. -/
def sendToPeer (s : HookState) (m : OutMsg) : HookState :=
  match s.peer with
  | some p => if p.destroyed then s else { s with outbox := s.outbox ++ [m] }
  | none => s

/-- `requestManifest()`: logs and sends a `request-manifest` message. -/
def requestManifest (s : HookState) : HookState :=
  sendToPeer (addLog s ("Requesting photo manifest") ("info")) OutMsg.requestManifest

/-- `requestPhoto(photoId, quality, maxDimension)`: logs and sends a
`request-photo` message. -/
def requestPhoto (s : HookState) (photoId : String) (quality maxDimension : Nat) :
    HookState :=
  sendToPeer (addLog s ("Requesting photo: " ++ photoId) ("info"))
    (OutMsg.requestPhoto photoId quality maxDimension)

/-- JS object-spread update `{...prev, [k]: v}` on a string-keyed map. -/
def setAssoc (l : List (String × String)) (k v : String) : List (String × String) :=
  if l.any (fun p => p.1 == k) then
    l.map (fun p => if p.1 == k then (k, v) else p)
  else l ++ [(k, v)]

/-- `finishPhotoDownload()`: early return when either `currentPhotoRef`
or `photoBufferRef` is null; otherwise builds a blob URL from the buffer,
stores it in `photoData`, logs, and nulls both refs.  (The body runs in a
try/catch, so it never throws to its caller.) -/
def finishPhotoDownload (s : HookState) : HookState :=
  match s.currentPhoto, s.photoBuffer with
  | some info, some _chunks =>
      let url := "blob:" ++ toString s.urlCounter
      let s1 := { s with
        photoData := setAssoc s.photoData info.id url,
        urlCounter := s.urlCounter + 1 }
      { addLog s1 ("Photo " ++ info.id ++ " ready for display") ("info") with
        currentPhoto := none, photoBuffer := none }
  | _, _ => s

/-- The manifest transformation applied in the `manifest` case of
`handlePeerData` (thumbnail and url start null, loaded on demand). -/
def transformPhoto (p : WirePhoto) : PhotoMeta :=
  { id := p.id, filename := p.name, thumbnail := none, url := none,
    size := p.size, width := p.width, height := p.height,
    modified := p.modified, created := p.created }

/-- `handlePeerData(data)`: dispatch on the parsed message type, or - when
the frame does not parse as JSON - append it to the photo buffer when a
transfer is active and drop it otherwise.  (In every reachable state
`currentPhoto.isSome` implies `photoBuffer.isSome`: `photo-start` sets
both and `finishPhotoDownload` clears both.) -/
def handlePeerData (s : HookState) (frame : PeerFrame) : HookState :=
  match frame with
  | PeerFrame.ctrl m =>
      match m with
      | Msg.manifest photos =>
          let s1 := addLog s ("Received manifest: " ++ toString photos.length ++ " photos") ("info")
          { s1 with photos := photos.map transformPhoto }
      | Msg.photoStart photoId name size mimeType =>
          let s1 := addLog s ("Starting photo download: " ++ photoId) ("info")
          { s1 with
            currentPhoto := some ⟨photoId, name, size, mimeType⟩,
            photoBuffer := some [] }
      | Msg.photoComplete photoId =>
          let s1 := addLog s ("Photo download complete: " ++ photoId) ("info")
          finishPhotoDownload s1
      | Msg.pong => s
      | Msg.errorMsg err =>
          let s1 := addLog s ("Error: " ++ err) ("error")
          { s1 with error := some err }
      | Msg.unknown t =>
          addLog s ("Unknown message type: " ++ t) ("warn")
  | PeerFrame.binary b =>
      if s.currentPhoto.isSome then
        { s with photoBuffer := s.photoBuffer.map (fun l => l ++ [b]) }
      else s

/-- `cleanup()`: destroys and nulls the peer, disconnects and nulls the
signaling socket, and revokes every blob URL held in `photoData`.  It
does not touch `photoData` itself, `photoBufferRef`, `currentPhotoRef`,
or `connectionState`. -/
def cleanup (s : HookState) : HookState :=
  let s1 := { s with peer := none, signalingSocket := none }
  { s1 with revoked :=
      s1.revoked ++ (s1.photoData.map Prod.snd).filter (fun u => u.startsWith ("blob:")) }

/-- `disconnect()`: logs, runs `cleanup()`, then sets the connection
state to `disconnected`. -/
def disconnect (s : HookState) : HookState :=
  let s1 := addLog s ("Disconnecting...") ("info")
  let s2 := cleanup s1
  { s2 with connectionState := "disconnected" }

/-- The handler of the `desktop-disconnected` socket event: logs a
warning, sets the error message, sets state `disconnected`, then runs
`cleanup()`. -/
def onDesktopDisconnected (s : HookState) : HookState :=
  let s1 := addLog s ("Desktop disconnected") ("warn")
  let s2 := { s1 with error := some ("Desktop disconnected"),
                      connectionState := "disconnected" }
  cleanup s2

/-- The handler of the peer `connect` event: logs, sets state `connected`,
clears the error, and issues `requestManifest()` automatically. -/
def onPeerConnect (s : HookState) : HookState :=
  let s1 := addLog s ("P2P connection established!") ("info")
  let s2 := { s1 with connectionState := "connected", error := none }
  requestManifest s2

end WebRTCHook

namespace BatchSync

/-- One debug log entry of the batch hook (`addLog(level, message, ...)`). -/
structure LogEntry where
  level : String
  message : String
  deriving Repr, DecidableEq

/-- One in-flight buffer of `photoBuffersRef` keyed by photoId, created
on the first `photo:data` chunk for a photoId. -/
structure Buffer where
  chunks : List (List Nat)
  receivedSize : Nat
  totalSize : Nat
  checksum : String
  mimeType : String
  deriving Repr, DecidableEq

/-- A photo entry of the batch hook `photos` state. -/
structure BPhoto where
  id : String
  url : Option String
  thumbnail : Option String
  deriving Repr, DecidableEq

/-- The observable state of the `usePhotoSync` hook relevant to the
photo handlers installed by `setupPhotoHandlers`. -/
structure BState where
  connectionState : String
  photos : List BPhoto
  photoBuffers : List (String × Buffer)
  syncCurrent : Nat
  syncTotal : Nat
  error : Option String
  debugLogs : List LogEntry
  urlCounter : Nat
  deriving Repr, DecidableEq

/-- Map lookup on `photoBuffersRef.current` (a JS `Map`). -/
def getBuffer (l : List (String × Buffer)) (k : String) : Option Buffer :=
  match l.find? (fun p => p.1 == k) with
  | some p => some p.2
  | none => none

/-- Map update `photoBuffersRef.current.set(k, v)`. -/
def setBuffer (l : List (String × Buffer)) (k : String) (v : Buffer) :
    List (String × Buffer) :=
  if l.any (fun p => p.1 == k) then
    l.map (fun p => if p.1 == k then (k, v) else p)
  else l ++ [(k, v)]

/-- Map removal `photoBuffersRef.current.delete(k)`. -/
def deleteBuffer (l : List (String × Buffer)) (k : String) :
    List (String × Buffer) :=
  l.filter (fun p => !(p.1 == k))

/-- `addLog(level, message)` of the batch hook: appends a log entry,
keeping the last 199 previous entries (`prev.slice(-199)`). -/
def addLog (s : BState) (level message : String) : BState :=
  { s with debugLogs := WebRTCHook.lastN 199 s.debugLogs ++ [⟨level, message⟩] }

/-- The handler of the `photo:data` socket event: creates the buffer on
the first chunk for a photoId (defaulting the MIME type to image/jpeg
when absent), appends the
chunk, adds its byte length to `receivedSize`, and updates the sync
progress against the announced total size. -/
def onPhotoData (s : BState) (photoId : String) (chunk : List Nat)
    (totalSize : Nat) (checksum : String) (mimeType : Option String) : BState :=
  let s1 :=
    if (getBuffer s.photoBuffers photoId).isSome then s
    else
      let fresh : Buffer :=
        { chunks := [], receivedSize := 0, totalSize := totalSize,
          checksum := checksum, mimeType := mimeType.getD ("image/jpeg") }
      addLog { s with photoBuffers := setBuffer s.photoBuffers photoId fresh }
        ("info") ("Receiving photo: " ++ photoId)
  match getBuffer s1.photoBuffers photoId with
  | none => s1
  | some b =>
      let b1 := { b with chunks := b.chunks ++ [chunk],
                         receivedSize := b.receivedSize + chunk.length }
      { s1 with photoBuffers := setBuffer s1.photoBuffers photoId b1,
                syncCurrent := b1.receivedSize, syncTotal := totalSize }

/-- Chunk concatenation in receipt order. -/
def concatChunks (chunks : List (List Nat)) : List Nat :=
  chunks.foldr (fun a b => a ++ b) []

/-- `new Uint8Array(totalSize)` followed by `fullData.set(chunk, offset)`
for each chunk at consecutive offsets: yields the concatenation padded
with zero bytes up to `totalSize`; throws a RangeError (here `none`)
when the received bytes overflow the announced total size. -/
def assembleFull (totalSize : Nat) (chunks : List (List Nat)) :
    Option (List Nat) :=
  let flat := concatChunks chunks
  if flat.length ≤ totalSize then
    some (flat ++ List.replicate (totalSize - flat.length) 0)
  else none

/-- The handler of the `photo:complete` socket event installed by
`setupPhotoHandlers`,
parameterised by the MD5 implementation (`CryptoJS.MD5`, an external
library, as a hex-digest function on byte sequences).  Looks up the
buffer (error log and return when absent), concatenates the chunks into
a `totalSize` array, recomputes the checksum, and on mismatch logs an
error and deletes the buffer without exposing a blob URL; on match
creates a blob URL, patches the photo entry, logs, and deletes the
buffer.  `none` models the RangeError thrown when the buffered bytes
exceed the announced size. -/
def onPhotoComplete (md5 : List Nat → String) (s : BState)
    (photoId : String) (totalSize : Nat) (checksum : String) :
    Option BState :=
  match getBuffer s.photoBuffers photoId with
  | none => some (addLog s ("error") ("No buffer for completed photo: " ++ photoId))
  | some buffer =>
      match assembleFull totalSize buffer.chunks with
      | none => none
      | some fullData =>
          let hash := md5 fullData
          if hash ≠ checksum then
            some { addLog s ("error") ("Checksum mismatch for photo " ++ photoId) with
                   photoBuffers := deleteBuffer s.photoBuffers photoId }
          else
            let url := "blob:" ++ toString s.urlCounter
            let s1 := { s with
              photos := s.photos.map (fun p =>
                if p.id == photoId then { p with url := some url, thumbnail := some url }
                else p),
              urlCounter := s.urlCounter + 1 }
            let s2 := addLog s1 ("info") ("Photo received: " ++ photoId)
            some { s2 with photoBuffers := deleteBuffer s2.photoBuffers photoId }

end BatchSync

namespace QRPair

/-- The pairing payload as decoded from a QR code, restricted to the
string fields inspected by `validateQRPayload`; `none` models an absent
(undefined) field. -/
structure QRPayload where
  type : Option String
  signalingServer : Option String
  roomId : Option String
  deriving Repr, DecidableEq

/-- JS truthiness of an optional string field: undefined and the empty
string are falsy. -/
def truthy : Option String → Bool
  | none => false
  | some s => !(s == "")

/-- Whether a character is matched by the JS regex metacharacter `.`
(anything but a line terminator). -/
def isJsDot (c : Char) : Bool :=
  !(c == '\n' || c == '\r' || c == '\u2028' || c == '\u2029')

/-- Consume the pattern prefix from the character list, then require at
least one further character matched by the JS `.`. -/
def matchPrefixDot : List Char → List Char → Bool
  | [], [] => false
  | [], c :: _ => isJsDot c
  | _ :: _, [] => false
  | p :: ps, c :: cs => p == c && matchPrefixDot ps cs

/-- `/^wss?:\/\/.+/.test(s)`: the string starts with `ws://` or
`wss://` and at least one further character matched by `.` follows. -/
def testWsUrl (s : String) : Bool :=
  matchPrefixDot ("ws://".data) s.data || matchPrefixDot ("wss://".data) s.data

/-- A character of the class `[a-f0-9]` under the `i` flag. -/
def isHexCharJs (c : Char) : Bool :=
  ('0' ≤ c && c ≤ '9') || ('a' ≤ c && c ≤ 'f') || ('A' ≤ c && c ≤ 'F')

/-- `/^[a-f0-9]+$/i.test(s)`: a non-empty string of hex digits. -/
def testHex (s : String) : Bool :=
  !(s == "") && s.data.all isHexCharJs

/-- `validateQRPayload(payload)`: throws (modelled as `Except.error`)
with a descriptive message on the first violated rule, and returns
`true` otherwise, exactly in the source order of the checks. -/
def validateQRPayload (p : QRPayload) : Except String Bool :=
  if !truthy p.type || !(p.type == some ("webrtc")) then
    Except.error ("Invalid QR code format - expected WebRTC connection")
  else if !truthy p.signalingServer then
    Except.error ("Missing signaling server URL")
  else if !truthy p.roomId then
    Except.error ("Missing room ID")
  else if !testWsUrl (p.signalingServer.getD ("")) then
    Except.error ("Invalid signaling server URL - must start with ws:// or wss://")
  else if !testHex (p.roomId.getD ("")) then
    Except.error ("Invalid room ID format")
  else
    Except.ok true

/-- The acceptance predicate as the spec words it: `type` equals
`"webrtc"`, `signalingServer` matches `wss?://.+`, and `roomId` is a
non-empty hexadecimal string. -/
def specAccepts (p : QRPayload) : Bool :=
  (p.type == some ("webrtc")) &&
  (match p.signalingServer with
   | some s => testWsUrl s
   | none => false) &&
  (match p.roomId with
   | some r => !(r == "") && r.data.all isHexCharJs
   | none => false)

end QRPair

namespace ConnStore

/-- The Supabase row selected by `loadWebRTCConnection` for the user,
with `last_connected_at` as a timestamp in milliseconds. -/
structure RemoteRecord where
  signaling_server : String
  room_id : String
  device_name : String
  last_connected_at : Int
  deriving Repr, DecidableEq

/-- The record stored under `photosync_webrtc_connection` in
localStorage, with `savedAt` as `Date.now()` milliseconds. -/
structure LocalRecord where
  signalingServer : String
  roomId : String
  deviceName : String
  savedAt : Int
  deriving Repr, DecidableEq

/-- The connection object returned to the caller on success. -/
structure LoadedConn where
  signalingServer : String
  roomId : String
  deviceName : String
  lastConnectedAt : Int
  persistent : Bool
  deriving Repr, DecidableEq

/-- The `{success, data}` result of `loadWebRTCConnection`. -/
structure LoadResult where
  success : Bool
  data : Option LoadedConn
  deriving Repr, DecidableEq

/-- The retention window: `90 * 24 * 60 * 60 * 1000` milliseconds. -/
def maxAge : Int := 90 * 24 * 60 * 60 * 1000

/-- `loadFromLocalStorage()`: `null` when nothing is stored; clears and
returns `null` when `Date.now() - savedAt > maxAge`; otherwise the
stored record marked persistent. -/
def loadFromLocalStorage (now : Int) (stored : Option LocalRecord) :
    Option LoadedConn :=
  match stored with
  | none => none
  | some d =>
      if now - d.savedAt > maxAge then none
      else some
        { signalingServer := d.signalingServer, roomId := d.roomId,
          deviceName := d.deviceName, lastConnectedAt := d.savedAt,
          persistent := true }

/-- `loadWebRTCConnection()`: when a user is authenticated and the
Supabase query returns a row whose age `Date.now() - last_connected_at`
is strictly below `maxAge`, that row is returned; otherwise (no user,
no row, or an expired row) the localStorage fallback is consulted; the
result always reports success with the found record or `null`. -/
def loadWebRTCConnection (now : Int) (hasUser : Bool)
    (remote : Option RemoteRecord) (stored : Option LocalRecord) :
    LoadResult :=
  let fromRemote : Option LoadedConn :=
    if hasUser then
      match remote with
      | some d =>
          if now - d.last_connected_at < maxAge then some
            { signalingServer := d.signaling_server, roomId := d.room_id,
              deviceName := d.device_name,
              lastConnectedAt := d.last_connected_at, persistent := true }
          else none
      | none => none
    else none
  match fromRemote with
  | some d => { success := true, data := some d }
  | none =>
      match loadFromLocalStorage now stored with
      | some l => { success := true, data := some l }
      | none => { success := true, data := none }

end ConnStore

namespace WebRTCHook

/-- Equality of two hook states on every field except the debug log. -/
def eqExceptLogs (t u : HookState) : Prop :=
  t.connectionState = u.connectionState ∧ t.error = u.error ∧
  t.photos = u.photos ∧ t.photoData = u.photoData ∧
  t.signalingSocket = u.signalingSocket ∧ t.peer = u.peer ∧
  t.photoBuffer = u.photoBuffer ∧ t.currentPhoto = u.currentPhoto ∧
  t.outbox = u.outbox ∧ t.revoked = u.revoked ∧ t.urlCounter = u.urlCounter

/-- The photo metadata of a sample mid-transfer state. -/
def sampleCurrent : CurrentPhoto :=
  { id := "p1", name := "a.jpg", size := 3, mimeType := "image/jpeg" }

/-- A concrete connected state with one photo transfer in flight. -/
def sampleMidTransfer : HookState :=
  { connectionState := "connected", error := none, photos := [],
    photoData := [("p0", "blob:0")], signalingSocket := some (),
    peer := some ⟨false⟩, photoBuffer := some [[1, 2, 3]],
    currentPhoto := some sampleCurrent, debugLogs := [], outbox := [],
    revoked := [], urlCounter := 1 }

/-- A concrete state with no peer connection and no active transfer. -/
def sampleNoPeer : HookState :=
  { connectionState := "disconnected", error := none, photos := [],
    photoData := [], signalingSocket := none, peer := none,
    photoBuffer := none, currentPhoto := none, debugLogs := [],
    outbox := [], revoked := [], urlCounter := 0 }

end WebRTCHook

namespace BatchSync

/-- A concrete fully received in-flight buffer (3 of 3 bytes). -/
def sampleBuffer : Buffer :=
  { chunks := [[1, 2], [3]], receivedSize := 3, totalSize := 3,
    checksum := "c", mimeType := "image/jpeg" }

/-- A concrete batch-hook state holding `sampleBuffer` for photo `p1`. -/
def sampleBState : BState :=
  { connectionState := "connected", photos := [⟨"p1", none, none⟩],
    photoBuffers := [("p1", sampleBuffer)], syncCurrent := 3,
    syncTotal := 3, error := none, debugLogs := [], urlCounter := 0 }

end BatchSync

namespace QRPair

/-- A payload satisfying every validation rule. -/
def goodPayload : QRPayload :=
  { type := some ("webrtc"), signalingServer := some ("wss://sig.example"),
    roomId := some ("abc123") }

/-- A payload whose signaling server URL violates the `wss?://` rule. -/
def badPayload : QRPayload :=
  { type := some ("webrtc"), signalingServer := some ("http://sig.example"),
    roomId := some ("abc123") }

end QRPair

/-! ## Theorems -/

/-- Claim C2: every newly received manifest fully replaces the previously
known photo list.  After handling manifest `A` and then manifest `B`,
the `photos` state is exactly the transformation of `B`; no entry of `A`
survives unless it also occurs in `B`. -/
theorem c2_manifest_replaces (s : WebRTCHook.HookState)
    (A B : List WebRTCHook.WirePhoto) :
    (WebRTCHook.handlePeerData
        (WebRTCHook.handlePeerData s (.ctrl (.manifest A)))
        (.ctrl (.manifest B))).photos
      = B.map WebRTCHook.transformPhoto := by
  rfl

/-- Claim C4: `disconnect()` is idempotent.  After one call and after a
second call the connection state is `disconnected`, and each call leaves
the peer and signaling references torn down (null); the function is
total, so neither call throws. -/
theorem c4_disconnect_idempotent (s : WebRTCHook.HookState) :
    (WebRTCHook.disconnect s).connectionState = "disconnected" ∧
    (WebRTCHook.disconnect (WebRTCHook.disconnect s)).connectionState
      = "disconnected" ∧
    (WebRTCHook.disconnect s).peer = none ∧
    (WebRTCHook.disconnect s).signalingSocket = none ∧
    (WebRTCHook.disconnect (WebRTCHook.disconnect s)).peer = none ∧
    (WebRTCHook.disconnect (WebRTCHook.disconnect s)).signalingSocket = none := by
  exact ⟨rfl, rfl, rfl, rfl, rfl, rfl⟩

/-- Claim C3, counterexample: in a connected state with a photo transfer
in flight, the `desktop-disconnected` handler does reset the state to
`disconnected`, but the in-flight chunk buffer and the current-photo
reference are retained, not discarded: the claim that all in-flight
transfer buffers are released is false. -/
theorem c3_counterexample :
    (WebRTCHook.onDesktopDisconnected WebRTCHook.sampleMidTransfer).connectionState
      = "disconnected" ∧
    (WebRTCHook.onDesktopDisconnected WebRTCHook.sampleMidTransfer).photoBuffer
      = some [[1, 2, 3]] ∧
    (WebRTCHook.onDesktopDisconnected WebRTCHook.sampleMidTransfer).currentPhoto
      = some WebRTCHook.sampleCurrent := by
  exact ⟨rfl, rfl, rfl⟩

/-- Claim C3 as amended: receiving `desktop-disconnected` resets the
connection state to `disconnected` (not `error`, though the error
message is set), tears down the peer and signaling references, and
leaves the in-flight chunk buffer and current-photo reference exactly as
they were (they are not discarded); the handler is total, so pending
callbacks do not crash. -/
theorem c3_desktop_disconnected_amended (s : WebRTCHook.HookState) :
    (WebRTCHook.onDesktopDisconnected s).connectionState = "disconnected" ∧
    (WebRTCHook.onDesktopDisconnected s).error = some ("Desktop disconnected") ∧
    (WebRTCHook.onDesktopDisconnected s).peer = none ∧
    (WebRTCHook.onDesktopDisconnected s).signalingSocket = none ∧
    (WebRTCHook.onDesktopDisconnected s).photoBuffer = s.photoBuffer ∧
    (WebRTCHook.onDesktopDisconnected s).currentPhoto = s.currentPhoto := by
  unfold WebRTCHook.onDesktopDisconnected WebRTCHook.cleanup WebRTCHook.addLog
  exact ⟨rfl, rfl, rfl, rfl, rfl, rfl⟩

/-- Claim C7: when the peer data channel opens (the peer `connect` event)
with a live peer in place, the session moves to `connected`, the error
is cleared, and a `request-manifest` message is sent to the peer with no
caller action. -/
theorem c7_connect_sends_manifest_request (s : WebRTCHook.HookState)
    (p : WebRTCHook.PeerHandle) (hp : s.peer = some p)
    (hd : p.destroyed = false) :
    (WebRTCHook.onPeerConnect s).connectionState = "connected" ∧
    (WebRTCHook.onPeerConnect s).error = none ∧
    (WebRTCHook.onPeerConnect s).outbox
      = s.outbox ++ [WebRTCHook.OutMsg.requestManifest] := by
  unfold WebRTCHook.onPeerConnect WebRTCHook.requestManifest
    WebRTCHook.sendToPeer WebRTCHook.addLog
  simp only [hp, hd]
  exact ⟨rfl, rfl, rfl⟩

/-- Claim C7 witness: in the concrete connected-pending state the
handler reaches `connected` and enqueues the manifest request. -/
theorem c7_witness :
    (WebRTCHook.onPeerConnect WebRTCHook.sampleMidTransfer).connectionState
      = "connected" ∧
    (WebRTCHook.onPeerConnect WebRTCHook.sampleMidTransfer).error = none ∧
    (WebRTCHook.onPeerConnect WebRTCHook.sampleMidTransfer).outbox
      = WebRTCHook.sampleMidTransfer.outbox
        ++ [WebRTCHook.OutMsg.requestManifest] :=
  c7_connect_sends_manifest_request WebRTCHook.sampleMidTransfer ⟨false⟩ rfl rfl

/-- Claim C8: a non-JSON data-channel frame is appended to the
in-progress photo buffer when a transfer is active, and silently
discarded otherwise; with no active transfer the state is unchanged in
every field. -/
theorem c8_binary_frame_dispatch (s : WebRTCHook.HookState) (b : List Nat) :
    (s.currentPhoto = none → WebRTCHook.handlePeerData s (.binary b) = s) ∧
    (∀ info l, s.currentPhoto = some info → s.photoBuffer = some l →
      WebRTCHook.handlePeerData s (.binary b)
        = { s with photoBuffer := some (l ++ [b]) }) := by
  constructor
  · intro h
    simp [WebRTCHook.handlePeerData, h]
  · intro info l h1 h2
    simp [WebRTCHook.handlePeerData, h1, h2]

/-- Claim C8 witness: a binary frame is dropped in the idle state and
appended to the buffer in the mid-transfer state. -/
theorem c8_witness :
    WebRTCHook.handlePeerData WebRTCHook.sampleNoPeer (.binary [7])
      = WebRTCHook.sampleNoPeer ∧
    WebRTCHook.handlePeerData WebRTCHook.sampleMidTransfer (.binary [7])
      = { WebRTCHook.sampleMidTransfer with photoBuffer := some [[1, 2, 3], [7]] } :=
  ⟨(c8_binary_frame_dispatch WebRTCHook.sampleNoPeer [7]).1 rfl,
   (c8_binary_frame_dispatch WebRTCHook.sampleMidTransfer [7]).2
     WebRTCHook.sampleCurrent [[1, 2, 3]] rfl rfl⟩

/-- With no current photo or no chunk buffer, `finishPhotoDownload` is
the identity (the early-return branch). -/
theorem finishPhotoDownload_inactive (s : WebRTCHook.HookState)
    (h : s.currentPhoto = none ∨ s.photoBuffer = none) :
    WebRTCHook.finishPhotoDownload s = s := by
  unfold WebRTCHook.finishPhotoDownload
  split
  · rename_i info chunks hinfo hbuf
    rcases h with h | h <;> simp_all
  · rfl

/-- Claim C9: a `photo-complete` message with no transfer in progress
(null current-photo reference or null chunk buffer) is a no-op:
`finishPhotoDownload` returns the state unchanged (in particular it is
total, so it does not throw), and the resolved photo data map is
untouched by the whole handler. -/
theorem c9_complete_without_transfer (s : WebRTCHook.HookState) (pid : String)
    (h : s.currentPhoto = none ∨ s.photoBuffer = none) :
    WebRTCHook.finishPhotoDownload s = s ∧
    (WebRTCHook.handlePeerData s (.ctrl (.photoComplete pid))).photoData
      = s.photoData := by
  refine ⟨finishPhotoDownload_inactive s h, ?_⟩
  have e : WebRTCHook.handlePeerData s (.ctrl (.photoComplete pid))
      = WebRTCHook.finishPhotoDownload
          (WebRTCHook.addLog s ("Photo download complete: " ++ pid) ("info")) := by
    unfold WebRTCHook.handlePeerData
    rfl
  have h2 := finishPhotoDownload_inactive
    (WebRTCHook.addLog s ("Photo download complete: " ++ pid) ("info")) h
  rw [e, h2]
  rfl

/-- Claim C9 witness: in the idle state the handler leaves the resolved
photo data untouched. -/
theorem c9_witness :
    WebRTCHook.finishPhotoDownload WebRTCHook.sampleNoPeer
      = WebRTCHook.sampleNoPeer ∧
    (WebRTCHook.handlePeerData WebRTCHook.sampleNoPeer
        (.ctrl (.photoComplete ("p9")))).photoData
      = WebRTCHook.sampleNoPeer.photoData :=
  c9_complete_without_transfer WebRTCHook.sampleNoPeer ("p9") (Or.inl rfl)

/-- Claim C10: with no peer, or a destroyed peer, `sendToPeer` sends
nothing and returns the state unchanged, and `requestManifest` and
`requestPhoto` (for every quality and maxDimension argument) change
nothing observable besides the debug log. -/
theorem c10_requests_noop_without_peer (s : WebRTCHook.HookState)
    (h : s.peer = none ∨ ∃ p, s.peer = some p ∧ p.destroyed = true) :
    (∀ m, WebRTCHook.sendToPeer s m = s) ∧
    WebRTCHook.eqExceptLogs (WebRTCHook.requestManifest s) s ∧
    (∀ pid q d, WebRTCHook.eqExceptLogs (WebRTCHook.requestPhoto s pid q d) s) := by
  have hsend : ∀ (t : WebRTCHook.HookState), t.peer = s.peer →
      ∀ m, WebRTCHook.sendToPeer t m = t := by
    intro t ht m
    unfold WebRTCHook.sendToPeer
    rcases h with h | ⟨p, hp, hd⟩
    · rw [ht, h]
    · rw [ht, hp]
      simp [hd]
  refine ⟨hsend s rfl, ?_, ?_⟩
  · unfold WebRTCHook.requestManifest
    rw [hsend (WebRTCHook.addLog s ("Requesting photo manifest") ("info")) rfl]
    unfold WebRTCHook.eqExceptLogs WebRTCHook.addLog
    exact ⟨rfl, rfl, rfl, rfl, rfl, rfl, rfl, rfl, rfl, rfl, rfl⟩
  · intro pid q d
    unfold WebRTCHook.requestPhoto
    rw [hsend (WebRTCHook.addLog s ("Requesting photo: " ++ pid) ("info")) rfl]
    unfold WebRTCHook.eqExceptLogs WebRTCHook.addLog
    exact ⟨rfl, rfl, rfl, rfl, rfl, rfl, rfl, rfl, rfl, rfl, rfl⟩

/-- Claim C10 witness: in the concrete no-peer state, sending is a no-op
and the request helpers only touch the debug log. -/
theorem c10_witness :
    WebRTCHook.sendToPeer WebRTCHook.sampleNoPeer WebRTCHook.OutMsg.requestManifest
      = WebRTCHook.sampleNoPeer ∧
    WebRTCHook.eqExceptLogs (WebRTCHook.requestManifest WebRTCHook.sampleNoPeer)
      WebRTCHook.sampleNoPeer ∧
    WebRTCHook.eqExceptLogs
      (WebRTCHook.requestPhoto WebRTCHook.sampleNoPeer ("p1") 0 1)
      WebRTCHook.sampleNoPeer :=
  ⟨(c10_requests_noop_without_peer WebRTCHook.sampleNoPeer (Or.inl rfl)).1 _,
   (c10_requests_noop_without_peer WebRTCHook.sampleNoPeer (Or.inl rfl)).2.1,
   (c10_requests_noop_without_peer WebRTCHook.sampleNoPeer (Or.inl rfl)).2.2 ("p1") 0 1⟩

/-- Claim C6: a saved connection is returned only within the 90-day
retention window.  A record aged 90 days + 1 second is treated as absent
and one aged 90 days − 1 second is returned, on the durable remote path
and on the localStorage fallback path alike. -/
theorem c6_retention_window (now : Int) (rec : ConnStore.RemoteRecord)
    (lrec : ConnStore.LocalRecord) :
    (now - rec.last_connected_at = ConnStore.maxAge + 1000 →
      ConnStore.loadWebRTCConnection now true (some rec) none
        = { success := true, data := none }) ∧
    (now - rec.last_connected_at = ConnStore.maxAge - 1000 →
      ConnStore.loadWebRTCConnection now true (some rec) none
        = { success := true,
            data := some ({ signalingServer := rec.signaling_server,
                            roomId := rec.room_id,
                            deviceName := rec.device_name,
                            lastConnectedAt := rec.last_connected_at,
                            persistent := true }) }) ∧
    (now - lrec.savedAt = ConnStore.maxAge + 1000 →
      ConnStore.loadFromLocalStorage now (some lrec) = none ∧
      ConnStore.loadWebRTCConnection now false none (some lrec)
        = { success := true, data := none }) ∧
    (now - lrec.savedAt = ConnStore.maxAge - 1000 →
      ConnStore.loadFromLocalStorage now (some lrec)
        = some ({ signalingServer := lrec.signalingServer,
                  roomId := lrec.roomId, deviceName := lrec.deviceName,
                  lastConnectedAt := lrec.savedAt, persistent := true }) ∧
      ConnStore.loadWebRTCConnection now false none (some lrec)
        = { success := true,
            data := some ({ signalingServer := lrec.signalingServer,
                            roomId := lrec.roomId,
                            deviceName := lrec.deviceName,
                            lastConnectedAt := lrec.savedAt,
                            persistent := true }) }) := by
  refine ⟨?_, ?_, ?_, ?_⟩ <;> intro h <;>
    simp [ConnStore.loadWebRTCConnection, ConnStore.loadFromLocalStorage, h,
      ConnStore.maxAge]

/-- Claim C6 witness: with the retention window of 7776000000 ms, a
record saved at time 0 is expired at 7776001000 and valid at 7775999000,
on both paths. -/
theorem c6_witness :
    ConnStore.loadWebRTCConnection 7776001000 true (some ⟨"wss://s", "ab", "d", 0⟩)
      none = { success := true, data := none } ∧
    ConnStore.loadWebRTCConnection 7775999000 true (some ⟨"wss://s", "ab", "d", 0⟩)
      none = { success := true, data := some ⟨"wss://s", "ab", "d", 0, true⟩ } ∧
    (ConnStore.loadFromLocalStorage 7776001000 (some ⟨"wss://s", "ab", "d", 0⟩)
        = none ∧
     ConnStore.loadWebRTCConnection 7776001000 false none
        (some ⟨"wss://s", "ab", "d", 0⟩) = { success := true, data := none }) ∧
    (ConnStore.loadFromLocalStorage 7775999000 (some ⟨"wss://s", "ab", "d", 0⟩)
        = some ⟨"wss://s", "ab", "d", 0, true⟩ ∧
     ConnStore.loadWebRTCConnection 7775999000 false none
        (some ⟨"wss://s", "ab", "d", 0⟩)
        = { success := true, data := some ⟨"wss://s", "ab", "d", 0, true⟩ }) :=
  ⟨(c6_retention_window 7776001000 ⟨"wss://s", "ab", "d", 0⟩
      ⟨"wss://s", "ab", "d", 0⟩).1 (by decide),
   (c6_retention_window 7775999000 ⟨"wss://s", "ab", "d", 0⟩
      ⟨"wss://s", "ab", "d", 0⟩).2.1 (by decide),
   (c6_retention_window 7776001000 ⟨"wss://s", "ab", "d", 0⟩
      ⟨"wss://s", "ab", "d", 0⟩).2.2.1 (by decide),
   (c6_retention_window 7775999000 ⟨"wss://s", "ab", "d", 0⟩
      ⟨"wss://s", "ab", "d", 0⟩).2.2.2 (by decide)⟩

/-- Every run of `validateQRPayload` either returns `true` or throws an
error carrying a non-empty (descriptive) message. -/
theorem validate_shape (p : QRPair.QRPayload) :
    QRPair.validateQRPayload p = Except.ok true ∨
    ∃ msg, QRPair.validateQRPayload p = Except.error msg ∧ 0 < msg.length := by
  unfold QRPair.validateQRPayload
  split_ifs <;> first
    | exact Or.inl rfl
    | exact Or.inr ⟨_, rfl, by decide⟩

/-- `validateQRPayload` returns `true` exactly on the payloads accepted
by the spec rules (`type = "webrtc"`, `wss?://.+` server URL, non-empty
hex room id). -/
theorem validate_ok_iff (p : QRPair.QRPayload) :
    QRPair.validateQRPayload p = Except.ok true ↔ QRPair.specAccepts p = true := by
  obtain ⟨t, ss, rid⟩ := p
  cases t <;> cases ss <;> cases rid <;>
    simp_all [QRPair.validateQRPayload, QRPair.specAccepts, QRPair.truthy,
      QRPair.testHex] <;>
    split_ifs <;> simp_all <;>
    first
      | (rintro rfl
         rcases ‹"webrtc" = "" ∨ ¬"webrtc" = "webrtc"› with h | h
         · exact absurd h (by decide)
         · exact absurd rfl h)
      | (intro hw
         exact absurd hw (by decide))

/-- Claim C5: `validateQRPayload` accepts (returns `true` on) a payload
if and only if its `type` is `"webrtc"`, its `signalingServer` matches
`wss?://.+`, and its `roomId` is a non-empty hexadecimal string; every
payload violating a rule makes it throw a descriptive (non-empty)
validation error instead of returning. -/
theorem c5_validate_qr_payload (p : QRPair.QRPayload) :
    (QRPair.validateQRPayload p = Except.ok true ↔ QRPair.specAccepts p = true) ∧
    (QRPair.specAccepts p = false →
      ∃ msg, QRPair.validateQRPayload p = Except.error msg ∧ 0 < msg.length) := by
  refine ⟨validate_ok_iff p, ?_⟩
  intro hs
  rcases validate_shape p with h | h
  · exfalso
    have hok := (validate_ok_iff p).mp h
    rw [hs] at hok
    exact absurd hok (by decide)
  · exact h

/-- Claim C5 witness: the concrete well-formed payload is accepted and
the concrete payload with an `http://` signaling server is rejected with
a non-empty error message. -/
theorem c5_witness :
    QRPair.validateQRPayload QRPair.goodPayload = Except.ok true ∧
    ∃ msg, QRPair.validateQRPayload QRPair.badPayload = Except.error msg ∧
      0 < msg.length :=
  ⟨(c5_validate_qr_payload QRPair.goodPayload).1.mpr (by decide),
   (c5_validate_qr_payload QRPair.badPayload).2 (by decide)⟩

/-- Looking up a key right after deleting it from the buffer map yields
nothing. -/
theorem getBuffer_deleteBuffer (l : List (String × BatchSync.Buffer))
    (k : String) :
    BatchSync.getBuffer (BatchSync.deleteBuffer l k) k = none := by
  have h : (l.filter (fun p => !(p.1 == k))).find? (fun p => p.1 == k) = none := by
    rw [List.find?_eq_none]
    intro x hx
    rw [List.mem_filter] at hx
    simpa using hx.2
  unfold BatchSync.getBuffer BatchSync.deleteBuffer
  rw [h]

/-- Claim C1: on the batch path, for a photo whose chunks have been
fully received (buffered bytes equal the announced total size), if the
locally recomputed checksum over the reassembled byte sequence differs
from the checksum announced in `photo:complete`, the handler rejects the
photo: the chunk buffer for that photoId is deleted, the photo list is
untouched (no blob URL is exposed), an error-level log entry is
surfaced, and the connection state and error state are unchanged.  The
statement holds for every checksum function, hence for MD5. -/
theorem c1_checksum_mismatch_rejected (md5 : List Nat → String)
    (s : BatchSync.BState) (photoId : String) (b : BatchSync.Buffer)
    (totalSize : Nat) (checksum : String)
    (hb : BatchSync.getBuffer s.photoBuffers photoId = some b)
    (hfull : (BatchSync.concatChunks b.chunks).length = totalSize)
    (hdiff : md5 (BatchSync.concatChunks b.chunks) ≠ checksum) :
    ∃ s2, BatchSync.onPhotoComplete md5 s photoId totalSize checksum = some s2 ∧
      BatchSync.getBuffer s2.photoBuffers photoId = none ∧
      s2.photos = s.photos ∧
      s2.connectionState = s.connectionState ∧
      s2.error = s.error ∧
      s2.debugLogs = WebRTCHook.lastN 199 s.debugLogs
        ++ [⟨"error", "Checksum mismatch for photo " ++ photoId⟩] := by
  have hassemble : BatchSync.assembleFull totalSize b.chunks
      = some (BatchSync.concatChunks b.chunks) := by
    simp [BatchSync.assembleFull, hfull]
  simp only [BatchSync.onPhotoComplete, hb, hassemble]
  rw [if_pos hdiff]
  exact ⟨_, rfl, getBuffer_deleteBuffer _ _, rfl, rfl, rfl, rfl⟩

/-- Claim C1 witness: with a checksum function returning `"deadbeef"`
and an announced checksum `"c"`, the fully received sample buffer for
photo `p1` is rejected: buffer deleted, photos unchanged, error logged,
connection state unchanged. -/
theorem c1_witness :
    ∃ s2, BatchSync.onPhotoComplete (fun _ => "deadbeef") BatchSync.sampleBState
        ("p1") 3 ("c") = some s2 ∧
      BatchSync.getBuffer s2.photoBuffers ("p1") = none ∧
      s2.photos = BatchSync.sampleBState.photos ∧
      s2.connectionState = BatchSync.sampleBState.connectionState ∧
      s2.error = BatchSync.sampleBState.error ∧
      s2.debugLogs = WebRTCHook.lastN 199 BatchSync.sampleBState.debugLogs
        ++ [⟨"error", "Checksum mismatch for photo " ++ "p1"⟩] :=
  c1_checksum_mismatch_rejected (fun _ => "deadbeef") BatchSync.sampleBState
    ("p1") BatchSync.sampleBuffer 3 ("c") rfl (by decide) (by decide)
